import Mathlib

/-!
Shallow embedding of the pricematch MCP worker (src/index.ts).

The worker registers four tools on an MCP server: find_product_urls,
extract_product_price, add and calculate.  A second variant of the worker
additionally gates every inbound request behind a shared-secret check in its
fetch handler.  Numbers are modelled as rationals, the loosely typed JSON
documents returned by the external API as an inductive Json type, outbound
HTTP effects as an explicit oracle argument, and JavaScript exceptions inside
the try blocks as Except values that the surrounding catch converts to text.
-/

namespace PricematchMCP

/-- JSON values, as parsed from an upstream response body. -/
inductive Json where
  | null : Json
  | bool (b : Bool) : Json
  | num (q : Rat) : Json
  | str (s : String) : Json
  | arr (elems : List Json) : Json
  | obj (fields : List (String × Json)) : Json
deriving Repr

/-- JavaScript truthiness of a JSON value: null, false, 0 and the empty
string are falsy, everything else (including arrays and objects) is truthy. -/
def jsTruthy : Json → Bool
  | .null => false
  | .bool b => b
  | .num q => if q = 0 then false else true
  | .str s => if s = "" then false else true
  | .arr _ => true
  | .obj _ => true

/-- Rendering of a number by JavaScript String(): integers print without a
denominator, other rationals with one. -/
def numToString (q : Rat) : String :=
  if q.den = 1 then toString q.num else toString q

mutual

/-- JavaScript String() conversion of a JSON value. -/
def jsString : Json → String
  | .null => "null"
  | .bool true => "true"
  | .bool false => "false"
  | .num q => numToString q
  | .str s => s
  | .arr elems => jsStringList elems
  | .obj _ => "[object Object]"

/-- Comma-joined rendering of array elements, as Array.prototype.toString. -/
def jsStringList : List Json → String
  | [] => ""
  | [x] => jsString x
  | x :: y :: rest => jsString x ++ "," ++ jsStringList (y :: rest)

end

/-- Property access `j[k]` on a non-null JSON value: object field lookup,
undefined (none) on every other shape. -/
def jsGet : Json → String → Option Json
  | .obj fields, k => fields.lookup k
  | _, _ => none

/-- Index access `j[i]` on a non-null JSON value: array element lookup,
undefined (none) on every other shape. -/
def jsIdx : Json → Nat → Option Json
  | .arr elems, i => elems.get? i
  | _, _ => none

/-- Optional-chaining index access `v?.[i]`: undefined when the base is
undefined or null, otherwise plain index access. -/
def optIdx (v : Option Json) (i : Nat) : Option Json :=
  match v with
  | none => none
  | some .null => none
  | some j => jsIdx j i

/-- Optional-chaining property access `v?.k`: undefined when the base is
undefined or null, otherwise plain property access. -/
def optGet (v : Option Json) (k : String) : Option Json :=
  match v with
  | none => none
  | some .null => none
  | some j => jsGet j k

/-- JavaScript `v || d` on a possibly-undefined value: the value when it is
present and truthy, the default otherwise. -/
def jsOr (v : Option Json) (d : Json) : Json :=
  match v with
  | some x => if jsTruthy x then x else d
  | none => d

/-- One `{ type: "text", text: ... }` content item.  The text field holds the
raw JavaScript value assigned by the handler, which the source does not always
pass through String(). -/
structure TextItem where
  text : Json
deriving Repr

/-- The uniform response envelope of every tool handler. -/
structure ToolResult where
  content : List TextItem
deriving Repr

/-- Truthiness of env.FIRECRAWL_API_KEY: none models an unset variable,
the empty string is falsy like in JavaScript. -/
def jsStrTruthy : Option String → Bool
  | none => false
  | some s => if s = "" then false else true

/-- The add tool handler: String(a + b) as a single text item. -/
def add (a b : Rat) : ToolResult :=
  { content := [{ text := .str (numToString (a + b)) }] }

/-- The four operations accepted by the calculate tool. -/
inductive Operation where
  | add | subtract | multiply | divide
deriving Repr, DecidableEq

/-- The calculate tool handler: switch on the operation, with an early
divide-by-zero return, otherwise String(result) as a single text item. -/
def calculate (operation : Operation) (a b : Rat) : ToolResult :=
  match operation with
  | .add => { content := [{ text := .str (numToString (a + b)) }] }
  | .subtract => { content := [{ text := .str (numToString (a - b)) }] }
  | .multiply => { content := [{ text := .str (numToString (a * b)) }] }
  | .divide =>
    if b = 0 then { content := [{ text := .str "Error: Cannot divide by zero" }] }
    else { content := [{ text := .str (numToString (a / b)) }] }

/-- An outbound request to the external API: its search endpoint with a
query body, or its extraction endpoint with a target URL body. -/
inductive FetchRequest where
  | search (query : String) : FetchRequest
  | extract (url : String) : FetchRequest
deriving Repr, DecidableEq

/-- Outcome of one outbound fetch: the promise rejected, or a response with
a success flag whose body either parses to JSON or makes json() throw. -/
inductive HttpResult where
  | exn : HttpResult
  | resp (ok : Bool) (body : Option Json) : HttpResult
deriving Repr

/-- The Walmart-scoped search request issued for a product name. -/
def searchWalmart (productName : String) : FetchRequest :=
  .search ("site:walmart.com " ++ productName)

/-- The Target-scoped search request issued for a product name. -/
def searchTarget (productName : String) : FetchRequest :=
  .search ("site:target.com " ++ productName)

/-- `doc.data?.[0]?.url` on a parsed search body: member access on a null
document throws (error), otherwise the optional chain yields the field or
undefined. -/
def urlFromSearch (doc : Json) : Except Unit (Option Json) :=
  match doc with
  | .null => .error ()
  | _ => .ok (optGet (optIdx (jsGet doc "data") 0) "url")

/-- The try block of find_product_urls: both requests awaited together, a
joint status check, then per-site URL extraction with sentinels. -/
def find_product_urls_try (productName : String)
    (oracle : FetchRequest → HttpResult) : Except Unit ToolResult :=
  match oracle (searchWalmart productName), oracle (searchTarget productName) with
  | .exn, _ => .error ()
  | _, .exn => .error ()
  | .resp wok wbody, .resp tok tbody =>
    if wok = false ∨ tok = false then
      .ok { content := [{ text := .str "Error fetching data from Firecrawl." }] }
    else
      match wbody with
      | none => .error ()
      | some wdoc =>
        match tbody with
        | none => .error ()
        | some tdoc =>
          match urlFromSearch wdoc, urlFromSearch tdoc with
          | .error _, _ => .error ()
          | _, .error _ => .error ()
          | .ok wurl, .ok turl =>
            .ok { content := [{ text := jsOr wurl (.str "Walmart URL Not Found") },
                              { text := jsOr turl (.str "Target URL Not Found") }] }

/-- The find_product_urls handler: missing-key short circuit, then the try
block with its catch converting any exception to a generic text.  The second
component lists the outbound requests issued. -/
def find_product_urls (firecrawlApiKey : Option String) (productName : String)
    (oracle : FetchRequest → HttpResult) : ToolResult × List FetchRequest :=
  if jsStrTruthy firecrawlApiKey = false then
    ({ content := [{ text := .str "Error: Firecrawl API key is not configured." }] }, [])
  else
    (match find_product_urls_try productName oracle with
     | .ok r => r
     | .error _ => { content := [{ text := .str "An unexpected error occurred." }] },
     [searchWalmart productName, searchTarget productName])

/-- `doc.data?.price` on a parsed extraction body: member access on a null
document throws (error), otherwise the optional chain yields the field or
undefined. -/
def priceFromDoc (doc : Json) : Except Unit (Option Json) :=
  match doc with
  | .null => .error ()
  | _ => .ok (optGet (jsGet doc "data") "price")

/-- The try block of extract_product_price: one request, a status check,
then the price field with its sentinel, rendered through String(). -/
def extract_product_price_try (productUrl : String)
    (oracle : FetchRequest → HttpResult) : Except Unit ToolResult :=
  match oracle (.extract productUrl) with
  | .exn => .error ()
  | .resp ok body =>
    if ok = false then
      .ok { content := [{ text := .str "Error extracting price from URL." }] }
    else
      match body with
      | none => .error ()
      | some doc =>
        match priceFromDoc doc with
        | .error _ => .error ()
        | .ok p =>
          .ok { content := [{ text := .str (jsString (jsOr p (.str "Price not found"))) }] }

/-- The extract_product_price handler: missing-key short circuit, then the
try block with its catch converting any exception to a generic text.  The
second component lists the outbound requests issued. -/
def extract_product_price (firecrawlApiKey : Option String) (productUrl : String)
    (oracle : FetchRequest → HttpResult) : ToolResult × List FetchRequest :=
  if jsStrTruthy firecrawlApiKey = false then
    ({ content := [{ text := .str "Error: Firecrawl API key is not configured." }] }, [])
  else
    (match extract_product_price_try productUrl oracle with
     | .ok r => r
     | .error _ =>
       { content := [{ text := .str "An unexpected error occurred while extracting the price." }] },
     [.extract productUrl])

/-- Removal of the first occurrence of a pattern from a string, as the
JavaScript String.prototype.replace with a string pattern and empty
replacement. -/
def replaceFirst (s pat : String) : String :=
  match s.splitOn pat with
  | [] => s
  | [x] => x
  | x :: y :: rest => String.intercalate pat ((x ++ y) :: rest)

/-- An inbound request as seen by the gated fetch handler: its method, the
two credential headers (none models an absent header) and the URL path. -/
structure GatedRequest where
  method : String
  apiKeyHeader : Option String
  authHeader : Option String
  path : String
deriving Repr

/-- The credential the gate extracts:
`headers.get('api-key') || headers.get('authorization')?.replace('Bearer ', '')`.
A null or empty api-key header falls through to the authorization header,
whose optional chain gives undefined (none) when it is absent. -/
def presentedKey (r : GatedRequest) : Option String :=
  match r.apiKeyHeader with
  | some s =>
    if s = "" then r.authHeader.map (fun a => replaceFirst a "Bearer ")
    else some s
  | none => r.authHeader.map (fun a => replaceFirst a "Bearer ")

/-- What the gated fetch handler returns: a plain Response with body, status
and headers, or a dispatch into the SSE or MCP tool-serving path. -/
inductive GateResponse where
  | plain (body : String) (status : Nat) (headers : List (String × String)) : GateResponse
  | sse : GateResponse
  | mcp : GateResponse
deriving Repr

/-- The permissive CORS headers attached to the unauthorized response. -/
def corsHeaders : List (String × String) :=
  [("Access-Control-Allow-Origin", "*"),
   ("Access-Control-Allow-Headers", "Content-Type, api-key, Authorization"),
   ("Access-Control-Allow-Methods", "GET, POST, OPTIONS")]

/-- The fixed 401 response produced by the gate on a credential mismatch. -/
def unauthorizedResponse : GateResponse :=
  .plain "Unauthorized: Invalid or missing API key" 401 corsHeaders

/-- Path routing after the gate: the SSE paths, the MCP endpoint, and a 404
for everything else. -/
def routePath (p : String) : GateResponse :=
  if p = "/sse" ∨ p.startsWith "/sse/" then .sse
  else if p = "/mcp" then .mcp
  else .plain "Not found" 404 []

/-- The gated variant's fetch handler: every non-OPTIONS request whose
extracted credential differs from env.MCP_API_KEY gets the fixed 401,
everything else is routed by path. -/
def gatedFetch (expectedApiKey : Option String) (r : GatedRequest) : GateResponse :=
  if r.method ≠ "OPTIONS" ∧ presentedKey r ≠ expectedApiKey then unauthorizedResponse
  else routePath r.path

/-! ## Helper lemmas -/

/-- Whenever the find try block resolves to a result, its content is
nonempty. -/
theorem find_try_content_ne_nil (productName : String)
    (oracle : FetchRequest → HttpResult) (r : ToolResult)
    (h : find_product_urls_try productName oracle = .ok r) : r.content ≠ [] := by
  unfold find_product_urls_try at h
  repeat' split at h
  all_goals try (injection h; done)
  all_goals injection h with h2
  all_goals rw [← h2]
  all_goals simp

/-- Whenever the extract try block resolves to a result, its content is
nonempty. -/
theorem extract_try_content_ne_nil (productUrl : String)
    (oracle : FetchRequest → HttpResult) (r : ToolResult)
    (h : extract_product_price_try productUrl oracle = .ok r) : r.content ≠ [] := by
  unfold extract_product_price_try at h
  repeat' split at h
  all_goals try (injection h; done)
  all_goals injection h with h2
  all_goals rw [← h2]
  all_goals simp

/-! ## Claims -/

/-- C1: for every numeric pair (a, b) with b ≠ 0, the calculate tool with
operation divide returns a single text item holding the rendered quotient of
a and b; for b = 0 it returns the fixed divide-by-zero notice text and no
numeric result. -/
theorem calculate_divide_correct (a b : Rat) :
    (b ≠ 0 → calculate .divide a b =
      { content := [{ text := .str (numToString (a / b)) }] }) ∧
    calculate .divide a 0 =
      { content := [{ text := .str "Error: Cannot divide by zero" }] } := by
  constructor
  · intro hb
    simp [calculate, hb]
  · simp [calculate]

/-- Witness for C1 at (a, b) = (1, 2) and (1, 0). -/
theorem calculate_divide_correct_witness :
    (2 : Rat) ≠ 0 ∧
    calculate .divide 1 2 = { content := [{ text := .str (numToString ((1 : Rat) / 2)) }] } ∧
    calculate .divide 1 0 = { content := [{ text := .str "Error: Cannot divide by zero" }] } :=
  ⟨by norm_num, (calculate_divide_correct 1 2).1 (by norm_num), (calculate_divide_correct 1 0).2⟩

/-- C8: the add tool and the calculate tool with operation add return the
same single text item for every numeric pair. -/
theorem add_calculate_agree (a b : Rat) : add a b = calculate .add a b := rfl

/-- C4: when the external credential is unset or empty, both fetch tools
return the configuration-missing text immediately and issue zero outbound
requests. -/
theorem missing_key_short_circuit (firecrawlApiKey : Option String)
    (productName productUrl : String) (oracle oracle2 : FetchRequest → HttpResult)
    (hkey : jsStrTruthy firecrawlApiKey = false) :
    find_product_urls firecrawlApiKey productName oracle =
      ({ content := [{ text := .str "Error: Firecrawl API key is not configured." }] }, []) ∧
    extract_product_price firecrawlApiKey productUrl oracle2 =
      ({ content := [{ text := .str "Error: Firecrawl API key is not configured." }] }, []) := by
  constructor
  · simp [find_product_urls, hkey]
  · simp [extract_product_price, hkey]

/-- Witness for C4 with an unset credential. -/
theorem missing_key_short_circuit_witness :
    jsStrTruthy none = false ∧
    find_product_urls none "Echo Dot" (fun _ => .exn) =
      ({ content := [{ text := .str "Error: Firecrawl API key is not configured." }] }, []) ∧
    extract_product_price none "https://example.com/p/123" (fun _ => .exn) =
      ({ content := [{ text := .str "Error: Firecrawl API key is not configured." }] }, []) :=
  ⟨rfl,
   (missing_key_short_circuit none "Echo Dot" "https://example.com/p/123"
     (fun _ => .exn) (fun _ => .exn) rfl).1,
   (missing_key_short_circuit none "Echo Dot" "https://example.com/p/123"
     (fun _ => .exn) (fun _ => .exn) rfl).2⟩

/-- C2: in the gated variant, every non-OPTIONS request whose extracted
credential differs from the configured secret gets exactly the fixed 401
response with the permissive CORS headers and is never dispatched, while
every OPTIONS request skips the credential check and goes straight to path
routing. -/
theorem gate_rejects_mismatch (expectedApiKey : Option String) (r : GatedRequest) :
    (r.method ≠ "OPTIONS" → presentedKey r ≠ expectedApiKey →
      gatedFetch expectedApiKey r = unauthorizedResponse) ∧
    (r.method = "OPTIONS" → gatedFetch expectedApiKey r = routePath r.path) := by
  constructor
  · intro hm hk
    simp [gatedFetch, hm, hk]
  · intro hm
    simp [gatedFetch, hm]

/-- Witness for C2: a wrong api-key header on a POST is rejected, the same
credential on OPTIONS is routed. -/
theorem gate_rejects_mismatch_witness :
    gatedFetch (some "secret")
      { method := "POST", apiKeyHeader := some "wrong", authHeader := none, path := "/mcp" } =
      unauthorizedResponse ∧
    gatedFetch (some "secret")
      { method := "OPTIONS", apiKeyHeader := some "wrong", authHeader := none, path := "/mcp" } =
      routePath "/mcp" :=
  ⟨(gate_rejects_mismatch (some "secret") _).1 (by decide) (by decide),
   (gate_rejects_mismatch (some "secret") _).2 rfl⟩

/-- C10: with no configured secret and neither credential header present,
the extracted credential and the expected secret are both undefined, the
strict-equality check passes, and a non-OPTIONS request falls through to
path routing (so the MCP endpoint is dispatched). -/
theorem gate_no_secret_passes (r : GatedRequest)
    (h1 : r.apiKeyHeader = none) (h2 : r.authHeader = none)
    (hm : r.method ≠ "OPTIONS") :
    presentedKey r = none ∧
    gatedFetch none r = routePath r.path ∧
    (r.path = "/mcp" → gatedFetch none r = GateResponse.mcp) := by
  have hp : presentedKey r = none := by simp [presentedKey, h1, h2]
  refine ⟨hp, by simp [gatedFetch, hp], ?_⟩
  intro hpath
  have hroute : routePath "/mcp" = GateResponse.mcp := rfl
  simp [gatedFetch, hp, hpath, hroute]

/-- Witness for C10: a POST to /mcp with no headers and no configured
secret reaches the MCP dispatch. -/
theorem gate_no_secret_passes_witness :
    presentedKey { method := "POST", apiKeyHeader := none, authHeader := none, path := "/mcp" } = none ∧
    gatedFetch none { method := "POST", apiKeyHeader := none, authHeader := none, path := "/mcp" } =
      GateResponse.mcp :=
  ⟨(gate_no_secret_passes ⟨"POST", none, none, "/mcp"⟩ rfl rfl (by decide)).1,
   (gate_no_secret_passes ⟨"POST", none, none, "/mcp"⟩ rfl rfl (by decide)).2.2 rfl⟩

/-- C3: when either upstream search response carries a failure status, the
handler returns exactly one text item with the fetch-error message and no URL
from the other response. -/
theorem find_fetch_error_atomic (firecrawlApiKey : Option String)
    (productName : String) (oracle : FetchRequest → HttpResult)
    (wok tok : Bool) (wbody tbody : Option Json)
    (hkey : jsStrTruthy firecrawlApiKey = true)
    (hw : oracle (searchWalmart productName) = .resp wok wbody)
    (ht : oracle (searchTarget productName) = .resp tok tbody)
    (hfail : wok = false ∨ tok = false) :
    (find_product_urls firecrawlApiKey productName oracle).1 =
      { content := [{ text := .str "Error fetching data from Firecrawl." }] } := by
  simp [find_product_urls, hkey, find_product_urls_try, hw, ht, hfail]

/-- Witness for C3: the Walmart call fails while the Target call succeeds
with a usable URL, and the error alone is returned. -/
theorem find_fetch_error_atomic_witness :
    jsStrTruthy (some "key") = true ∧
    (find_product_urls (some "key") "Echo Dot"
      (fun r => if r = searchWalmart "Echo Dot" then .resp false none
        else .resp true (some (.obj [("data", .arr [.obj [("url", .str "https://t")]])])))).1 =
      { content := [{ text := .str "Error fetching data from Firecrawl." }] } :=
  ⟨rfl,
   find_fetch_error_atomic (some "key") "Echo Dot" _ false true none
     (some (.obj [("data", .arr [.obj [("url", .str "https://t")]])]))
     rfl rfl rfl (Or.inl rfl)⟩

/-- C5: when both search responses succeed and each body's first data
element carries a url field holding a nonempty string, the handler returns
exactly the two URLs as text items, Walmart first, Target second. -/
theorem find_success_two_urls (firecrawlApiKey : Option String)
    (productName : String) (oracle : FetchRequest → HttpResult)
    (wdoc tdoc : Json) (wurl turl : String)
    (hkey : jsStrTruthy firecrawlApiKey = true)
    (hw : oracle (searchWalmart productName) = .resp true (some wdoc))
    (ht : oracle (searchTarget productName) = .resp true (some tdoc))
    (hwu : urlFromSearch wdoc = .ok (some (.str wurl))) (hwne : wurl ≠ "")
    (htu : urlFromSearch tdoc = .ok (some (.str turl))) (htne : turl ≠ "") :
    (find_product_urls firecrawlApiKey productName oracle).1 =
      { content := [{ text := .str wurl }, { text := .str turl }] } := by
  simp [find_product_urls, hkey, find_product_urls_try, hw, ht, hwu, htu,
        jsOr, jsTruthy, hwne, htne]

/-- Witness for C5 with two concrete success bodies. -/
theorem find_success_two_urls_witness :
    (find_product_urls (some "key") "Echo Dot"
      (fun r => if r = searchWalmart "Echo Dot"
        then .resp true (some (.obj [("data", .arr [.obj [("url", .str "https://w")]])]))
        else .resp true (some (.obj [("data", .arr [.obj [("url", .str "https://t")]])])))).1 =
      { content := [{ text := .str "https://w" }, { text := .str "https://t" }] } :=
  find_success_two_urls (some "key") "Echo Dot" _
    (.obj [("data", .arr [.obj [("url", .str "https://w")]])])
    (.obj [("data", .arr [.obj [("url", .str "https://t")]])])
    "https://w" "https://t" rfl rfl rfl rfl (by decide) rfl (by decide)

/-- C6: when the extraction response succeeds and its body's data.price
field holds a truthy value, the handler returns exactly one text item with
that value rendered through String(). -/
theorem extract_success_price (firecrawlApiKey : Option String)
    (productUrl : String) (oracle : FetchRequest → HttpResult) (doc v : Json)
    (hkey : jsStrTruthy firecrawlApiKey = true)
    (hr : oracle (.extract productUrl) = .resp true (some doc))
    (hp : priceFromDoc doc = .ok (some v)) (hv : jsTruthy v = true) :
    (extract_product_price firecrawlApiKey productUrl oracle).1 =
      { content := [{ text := .str (jsString v) }] } := by
  simp [extract_product_price, hkey, extract_product_price_try, hr, hp, jsOr, hv]

/-- Witness for C6 with a concrete price string. -/
theorem extract_success_price_witness :
    (extract_product_price (some "key") "https://example.com/p/123"
      (fun _ => .resp true (some (.obj [("data", .obj [("price", .str "19.99")])])))).1 =
      { content := [{ text := .str "19.99" }] } :=
  extract_success_price (some "key") "https://example.com/p/123" _
    (.obj [("data", .obj [("price", .str "19.99")])]) (.str "19.99")
    rfl rfl rfl rfl

/-- C7: every handler answers with a nonempty ToolResult on every input, and
when a try block raises, the catch converts the exception to the generic
failure text instead of letting it escape. -/
theorem handlers_always_answer (firecrawlApiKey : Option String)
    (productName productUrl : String) (oracle oracle2 : FetchRequest → HttpResult)
    (a b : Rat) (operation : Operation) :
    (find_product_urls firecrawlApiKey productName oracle).1.content ≠ [] ∧
    (extract_product_price firecrawlApiKey productUrl oracle2).1.content ≠ [] ∧
    (add a b).content ≠ [] ∧
    (calculate operation a b).content ≠ [] ∧
    (jsStrTruthy firecrawlApiKey = true →
      find_product_urls_try productName oracle = .error () →
      (find_product_urls firecrawlApiKey productName oracle).1 =
        { content := [{ text := .str "An unexpected error occurred." }] }) ∧
    (jsStrTruthy firecrawlApiKey = true →
      extract_product_price_try productUrl oracle2 = .error () →
      (extract_product_price firecrawlApiKey productUrl oracle2).1 =
        { content := [{ text := .str "An unexpected error occurred while extracting the price." }] }) := by
  refine ⟨?_, ?_, by simp [add], ?_, ?_, ?_⟩
  · cases hk : jsStrTruthy firecrawlApiKey with
    | false => simp [find_product_urls, hk]
    | true =>
      cases htry : find_product_urls_try productName oracle with
      | error e => simp [find_product_urls, hk, htry]
      | ok r =>
        have := find_try_content_ne_nil productName oracle r htry
        simpa [find_product_urls, hk, htry]
  · cases hk : jsStrTruthy firecrawlApiKey with
    | false => simp [extract_product_price, hk]
    | true =>
      cases htry : extract_product_price_try productUrl oracle2 with
      | error e => simp [extract_product_price, hk, htry]
      | ok r =>
        have := extract_try_content_ne_nil productUrl oracle2 r htry
        simpa [extract_product_price, hk, htry]
  · cases operation <;> simp [calculate] <;> split <;> simp
  · intro hk htry
    simp [find_product_urls, hk, htry]
  · intro hk htry
    simp [extract_product_price, hk, htry]

/-- Witness for C7: with a rejecting transport both try blocks raise, and
both handlers answer with the generic failure text. -/
theorem handlers_always_answer_witness :
    jsStrTruthy (some "key") = true ∧
    find_product_urls_try "x" (fun _ => .exn) = .error () ∧
    extract_product_price_try "https://u" (fun _ => .exn) = .error () ∧
    (find_product_urls (some "key") "x" (fun _ => .exn)).1 =
      { content := [{ text := .str "An unexpected error occurred." }] } ∧
    (extract_product_price (some "key") "https://u" (fun _ => .exn)).1 =
      { content := [{ text := .str "An unexpected error occurred while extracting the price." }] } :=
  ⟨rfl, rfl, rfl,
   (handlers_always_answer (some "key") "x" "https://u"
     (fun _ => .exn) (fun _ => .exn) 0 0 .add).2.2.2.2.1 rfl rfl,
   (handlers_always_answer (some "key") "x" "https://u"
     (fun _ => .exn) (fun _ => .exn) 0 0 .add).2.2.2.2.2 rfl rfl⟩

/-- C9: a field that is present but falsy degrades to the not-found
sentinel: an empty-string url yields the per-site sentinel, and a falsy
price (empty string, 0, null or false) yields the price sentinel. -/
theorem falsy_field_gives_sentinel (firecrawlApiKey : Option String)
    (productName productUrl : String) (oracle oracle2 : FetchRequest → HttpResult)
    (wdoc tdoc doc v : Json) (tv : Option Json)
    (hkey : jsStrTruthy firecrawlApiKey = true) :
    (oracle (searchWalmart productName) = .resp true (some wdoc) →
     oracle (searchTarget productName) = .resp true (some tdoc) →
     urlFromSearch wdoc = .ok (some (.str "")) →
     urlFromSearch tdoc = .ok tv →
     ((find_product_urls firecrawlApiKey productName oracle).1).content.head? =
       some { text := .str "Walmart URL Not Found" }) ∧
    (oracle2 (.extract productUrl) = .resp true (some doc) →
     priceFromDoc doc = .ok (some v) →
     jsTruthy v = false →
     (extract_product_price firecrawlApiKey productUrl oracle2).1 =
       { content := [{ text := .str "Price not found" }] }) := by
  constructor
  · intro hw ht hwu htu
    simp [find_product_urls, hkey, find_product_urls_try, hw, ht, hwu, htu, jsOr, jsTruthy]
  · intro hr hp hv
    simp [extract_product_price, hkey, extract_product_price_try, hr, hp, jsOr, hv, jsString]

/-- Witness for C9: an empty url string degrades to the Walmart sentinel,
and each falsy price value (empty string, 0, null, false) degrades to the
price sentinel. -/
theorem falsy_field_gives_sentinel_witness :
    ((find_product_urls (some "key") "Echo Dot"
      (fun r => if r = searchWalmart "Echo Dot"
        then .resp true (some (.obj [("data", .arr [.obj [("url", .str "")]])]))
        else .resp true (some (.obj [("data", .arr [.obj [("url", .str "https://t")]])])))).1).content.head? =
      some { text := .str "Walmart URL Not Found" } ∧
    (extract_product_price (some "key") "https://u"
      (fun _ => .resp true (some (.obj [("data", .obj [("price", .str "")])])))).1 =
      { content := [{ text := .str "Price not found" }] } ∧
    (extract_product_price (some "key") "https://u"
      (fun _ => .resp true (some (.obj [("data", .obj [("price", .num 0)])])))).1 =
      { content := [{ text := .str "Price not found" }] } ∧
    (extract_product_price (some "key") "https://u"
      (fun _ => .resp true (some (.obj [("data", .obj [("price", .null)])])))).1 =
      { content := [{ text := .str "Price not found" }] } ∧
    (extract_product_price (some "key") "https://u"
      (fun _ => .resp true (some (.obj [("data", .obj [("price", .bool false)])])))).1 =
      { content := [{ text := .str "Price not found" }] } :=
  ⟨(falsy_field_gives_sentinel (some "key") "Echo Dot" "https://u" _
      (fun _ => .exn) (.obj [("data", .arr [.obj [("url", .str "")]])])
      (.obj [("data", .arr [.obj [("url", .str "https://t")]])]) .null .null
      (some (.str "https://t")) rfl).1 rfl rfl rfl rfl,
   (falsy_field_gives_sentinel (some "key") "Echo Dot" "https://u"
      (fun _ => .exn) _ .null .null
      (.obj [("data", .obj [("price", .str "")])]) (.str "") none rfl).2 rfl rfl rfl,
   (falsy_field_gives_sentinel (some "key") "Echo Dot" "https://u"
      (fun _ => .exn) _ .null .null
      (.obj [("data", .obj [("price", .num 0)])]) (.num 0) none rfl).2 rfl rfl rfl,
   (falsy_field_gives_sentinel (some "key") "Echo Dot" "https://u"
      (fun _ => .exn) _ .null .null
      (.obj [("data", .obj [("price", .null)])]) .null none rfl).2 rfl rfl rfl,
   (falsy_field_gives_sentinel (some "key") "Echo Dot" "https://u"
      (fun _ => .exn) _ .null .null
      (.obj [("data", .obj [("price", .bool false)])]) (.bool false) none rfl).2 rfl rfl rfl⟩

end PricematchMCP
